import Mathlib

/-!
Verification of the prayer-time core of `src/app.py`.

The program's only computational core consists of two pure functions:

* `get_prayer_times(city="Karachi")` — looks `city` up in a literal
  five-city dictionary and falls back to the `"Karachi"` entry when the
  key is absent (`dict.get(city, data["Karachi"])`).
* `get_zawal_time(dhuhr_time)` — parses `dhuhr_time` with
  `datetime.datetime.strptime(dhuhr_time, "%I:%M %p")`, subtracts
  `timedelta(minutes=5)`, re-formats with `strftime("%I:%M %p")`, and on
  any parse failure returns the literal `"11:45 AM"`.

The embedding below reproduces CPython's `_strptime` semantics for the
format `"%I:%M %p"`: the directive `%I` compiles to the regex
alternation `1[0-2]|0[1-9]|[1-9]` (two-digit forms tried first, with
backtracking to the one-digit form; all three alternatives are literal
ASCII character classes), `%M` compiles to `[0-5]\d|\d` (the class
`[0-5]` is literal ASCII, while `\d` matches any Unicode decimal digit,
category Nd, since `_strptime` compiles its pattern over `str` with
`IGNORECASE` only, not `re.ASCII`), the literal space compiles to `\s+`
(Unicode whitespace), `%p` matches `AM|PM` case-insensitively (no
character outside `A/a`, `P/p`, `M/m` case-folds to those letters, so
the case-insensitive match is exactly over these), and the whole
pattern must consume the entire input. `int()` on the captured digits
sums decimal values positionally, so a Unicode digit contributes its
Nd decimal value. `strptime` then converts the (hour12, PM?) pair to a
24-hour value via `hour % 12 (+ 12 if PM)`; `strftime("%I:%M %p")`
zero-pads hour and minute to two ASCII digits and prints `AM` for
hours below 12.

The Unicode data (category-Nd digit runs and the `\s` whitespace set)
is that of Unicode 14.0 as shipped with CPython 3.11: every Nd
character sits in a contiguous run of ten codepoints whose decimal
values are 0–9 in order, so the runs are recorded by their starts.
-/

/-- Start codepoints of the 66 contiguous runs of ten Unicode 14.0
category-Nd decimal digits (`0x30` is ASCII `0`–`9`); a codepoint `s + k`
with `k < 10` in a run starting at `s` is a digit of decimal value `k`. -/
def ndRunStarts : List Nat :=
  [0x30, 0x660, 0x6f0, 0x7c0, 0x966, 0x9e6, 0xa66, 0xae6, 0xb66, 0xbe6,
   0xc66, 0xce6, 0xd66, 0xde6, 0xe50, 0xed0, 0xf20, 0x1040, 0x1090, 0x17e0,
   0x1810, 0x1946, 0x19d0, 0x1a80, 0x1a90, 0x1b50, 0x1bb0, 0x1c40, 0x1c50, 0xa620,
   0xa8d0, 0xa900, 0xa9d0, 0xa9f0, 0xaa50, 0xabf0, 0xff10, 0x104a0, 0x10d30, 0x11066,
   0x110f0, 0x11136, 0x111d0, 0x112f0, 0x11450, 0x114d0, 0x11650, 0x116c0, 0x11730, 0x118e0,
   0x11950, 0x11c50, 0x11d50, 0x11da0, 0x16a60, 0x16ac0, 0x16b50, 0x1d7ce, 0x1d7d8, 0x1d7e2,
   0x1d7ec, 0x1d7f6, 0x1e140, 0x1e2f0, 0x1e950, 0x1fbf0]

/-- `\d` of the strptime regex over `str`: any Unicode decimal digit
(category Nd). -/
def isPyDigit (c : Char) : Bool :=
  ndRunStarts.any fun s => s ≤ c.toNat && c.toNat ≤ s + 9

/-- Decimal value of a Unicode decimal digit: its offset inside its
run of ten (`0` for a character in no run, never reached under an
`isPyDigit` guard). -/
def pyDigitVal (c : Char) : Nat :=
  match ndRunStarts.find? (fun s => s ≤ c.toNat && c.toNat ≤ s + 9) with
  | some s => c.toNat - s
  | none => 0

/-- Numeric value of an ASCII digit character. -/
def digitVal (c : Char) : Nat := c.toNat - '0'.toNat

/-- The 29 codepoints Python's `str` regex `\s` matches (ASCII
whitespace, the separator controls `0x1c`–`0x1f`, NEL, NBSP, Ogham
space, the `0x2000`–`0x200a` spaces, line/paragraph separators,
narrow no-break space, medium mathematical space, ideographic space). -/
def pySpaceCodes : List Nat :=
  [0x9, 0xa, 0xb, 0xc, 0xd, 0x1c, 0x1d, 0x1e, 0x1f, 0x20, 0x85, 0xa0, 0x1680,
   0x2000, 0x2001, 0x2002, 0x2003, 0x2004, 0x2005, 0x2006, 0x2007, 0x2008, 0x2009,
   0x200a, 0x2028, 0x2029, 0x202f, 0x205f, 0x3000]

/-- `\s` of the strptime regex over `str`: Unicode whitespace. -/
def isSpaceCh (c : Char) : Bool :=
  pySpaceCodes.contains c.toNat

/-- Greedy `\s*` after the first mandatory whitespace of `\s+`. -/
def skipSpaces : List Char → List Char
  | [] => []
  | c :: rest => if isSpaceCh c then skipSpaces rest else c :: rest

/-- `%p` then end of input: `(AM|PM)` matched case-insensitively
(CPython compiles the whole strptime pattern with `IGNORECASE`), and
`strptime` rejects any unconverted trailing data, so the meridiem must
be the final two characters. Returns `(hour12, minute, isPM)`. -/
def parseMeridiem (h m : Nat) : List Char → Option (Nat × Nat × Bool)
  | [p, mc] =>
      if (p = 'A' || p = 'a') && (mc = 'M' || mc = 'm') then some (h, m, false)
      else if (p = 'P' || p = 'p') && (mc = 'M' || mc = 'm') then some (h, m, true)
      else none
  | _ => none

/-- The `\s+` between minute and meridiem: at least one whitespace
character, consumed greedily (the meridiem never starts with
whitespace, so greediness never needs backtracking here). -/
def parseSpaces (h m : Nat) : List Char → Option (Nat × Nat × Bool)
  | c :: rest => if isSpaceCh c then parseMeridiem h m (skipSpaces rest) else none
  | [] => none

/-- `%M` = `[0-5]\d|\d`: a two-digit minute is tried first; if the rest
of the pattern then fails, the regex engine backtracks to the one-digit
alternative (modelled by `<|>`). The class `[0-5]` holds ASCII digits
only; each `\d` is any Unicode decimal digit, and `int()` gives it its
Nd decimal value. -/
def parseMinute (h : Nat) (cs : List Char) : Option (Nat × Nat × Bool) :=
  (match cs with
   | c1 :: c2 :: rest =>
       if ('0' ≤ c1 && c1 ≤ '5') && isPyDigit c2 then
         parseSpaces h (10 * digitVal c1 + pyDigitVal c2) rest
       else none
   | _ => none)
  <|>
  (match cs with
   | c1 :: rest => if isPyDigit c1 then parseSpaces h (pyDigitVal c1) rest else none
   | _ => none)

/-- The literal `:` between `%I` and `%M`. -/
def parseColon (h : Nat) : List Char → Option (Nat × Nat × Bool)
  | ':' :: rest => parseMinute h rest
  | _ => none

/-- `%I` = `1[0-2]|0[1-9]|[1-9]`: the two-digit alternatives are tried
first (they are mutually exclusive on the first character); if the rest
of the pattern then fails, the engine backtracks to the one-digit
alternative `[1-9]`. -/
def parseHour (cs : List Char) : Option (Nat × Nat × Bool) :=
  (match cs with
   | c1 :: c2 :: rest =>
       if c1 = '1' && ('0' ≤ c2 && c2 ≤ '2') then parseColon (10 + digitVal c2) rest
       else if c1 = '0' && ('1' ≤ c2 && c2 ≤ '9') then parseColon (digitVal c2) rest
       else none
   | _ => none)
  <|>
  (match cs with
   | c1 :: rest =>
       if '1' ≤ c1 && c1 ≤ '9' then parseColon (digitVal c1) rest else none
   | _ => none)

/-- `datetime.datetime.strptime(s, "%I:%M %p")`, restricted to the
time-of-day fields it extracts: `some (hour12, minute, isPM)` on
success (`hour12 ∈ [1,12]`, `minute ≤ 59`), `none` when the pattern
does not match and the call raises `ValueError`. -/
def parseTime12 (s : String) : Option (Nat × Nat × Bool) :=
  parseHour s.data

/-- Zero-padded two-digit decimal rendering, as `%I`/`%M` of
`strftime` produce. -/
def pad2 (n : Nat) : List Char :=
  if n < 10 then ['0', Nat.digitChar n]
  else [Nat.digitChar (n / 10), Nat.digitChar (n % 10)]

/-- `strftime("%I:%M %p")` on a time of day given as a 24-hour hour and
a minute: `%I` prints `hour % 12`, with `0` rendered as `12`, zero
padded; `%p` prints `AM` for hours below 12 and `PM` otherwise. -/
def strftime12 (h24 m : Nat) : String :=
  let h12 := if h24 % 12 = 0 then 12 else h24 % 12
  String.mk (pad2 h12 ++ ':' :: (pad2 m ++ ' ' :: (if h24 < 12 then ['A', 'M'] else ['P', 'M'])))

/-- The spec's `deriveOffsetTime(midday, offsetMinutes)`: parse `midday`
as a 12-hour time, subtract `offsetMinutes` minutes with pure
time-of-day wraparound (Python's `datetime - timedelta` followed by
`strftime`, which discards the date), and re-format; on parse failure
return the literal fallback `"11:45 AM"`. The source `get_zawal_time`
is this function at `offsetMinutes = 5`. -/
def deriveOffsetTime (midday : String) (offsetMinutes : Int) : String :=
  match parseTime12 midday with
  | some (h12, m, pm) =>
      let h24 : Nat := h12 % 12 + (if pm then 12 else 0)
      let total : Int := ((h24 * 60 + m : Nat) : Int) - offsetMinutes
      let total' : Nat := (total % 1440).toNat
      strftime12 (total' / 60) (total' % 60)
  | none => "11:45 AM"

/-- `get_zawal_time` of `src/app.py`: subtract five minutes from the
parsed Dhuhr time, or fall back to `"11:45 AM"`. -/
def get_zawal_time (dhuhr_time : String) : String :=
  deriveOffsetTime dhuhr_time 5

/-- The literal `"Karachi"` entry of `prayer_times_data`
(`src/app.py` lines 32–39), which is also the fallback value of
`get_prayer_times`. -/
def karachiTimes : List (String × String) :=
  [("فجر", "05:15 AM"), ("طلوع آفتاب", "06:45 AM"), ("ظہر", "12:30 PM"),
   ("عصر", "04:00 PM"), ("مغرب", "06:45 PM"), ("عشاء", "08:15 PM")]

/-- The literal dictionary `prayer_times_data` of `src/app.py`
(lines 31–72), as an association list in source order. -/
def prayer_times_data : List (String × List (String × String)) :=
  [("Karachi", karachiTimes),
   ("Lahore",
    [("فجر", "04:45 AM"), ("طلوع آفتاب", "06:15 AM"), ("ظہر", "12:15 PM"),
     ("عصر", "03:45 PM"), ("مغرب", "06:30 PM"), ("عشاء", "08:00 PM")]),
   ("Islamabad",
    [("فجر", "04:30 AM"), ("طلوع آفتاب", "06:00 AM"), ("ظہر", "12:10 PM"),
     ("عصر", "03:40 PM"), ("مغرب", "06:25 PM"), ("عشاء", "07:55 PM")]),
   ("Peshawar",
    [("فجر", "04:35 AM"), ("طلوع آفتاب", "06:05 AM"), ("ظہر", "12:20 PM"),
     ("عصر", "03:50 PM"), ("مغرب", "06:35 PM"), ("عشاء", "08:05 PM")]),
   ("Quetta",
    [("فجر", "05:00 AM"), ("طلوع آفتاب", "06:30 AM"), ("ظہر", "12:40 PM"),
     ("عصر", "04:10 PM"), ("مغرب", "07:00 PM"), ("عشاء", "08:30 PM")])]

/-- Dictionary key lookup, `prayer_times_data[city]` as an `Option`
(Python dict keys are unique, so the first match is the binding). -/
def lookupCity (city : String) : Option (List (String × String)) :=
  (prayer_times_data.find? (fun p => p.1 == city)).map Prod.snd

/-- `get_prayer_times` of `src/app.py`:
`prayer_times_data.get(city, prayer_times_data["Karachi"])`, with the
Python default argument `city="Karachi"`. Total: every input string
yields a table, no exception path exists. -/
def get_prayer_times (city : String := "Karachi") : List (String × String) :=
  (lookupCity city).getD karachiTimes

/-- The six prayer-name keys shared by every city's table, in source
order. -/
def prayerKeys : List String :=
  ["فجر", "طلوع آفتاب", "ظہر", "عصر", "مغرب", "عشاء"]

/-- All strings matching the strict 12-hour pattern `HH:MM AM|PM`:
a zero-padded two-digit hour `01`–`12`, a colon, a zero-padded
two-digit minute `00`–`59`, a single space, and an upper-case meridiem
`AM` or `PM` — enumerated exhaustively as formatted strings. -/
def wellFormedTimes : List String :=
  (List.range 12).flatMap fun h =>
    (List.range 60).flatMap fun m =>
      [strftime12 ((h + 1) % 12) m, strftime12 ((h + 1) % 12 + 12) m]

/-- C1: for every city identifier that is a key of the literal catalog
("Karachi", "Lahore", "Islamabad", "Peshawar", "Quetta"),
`get_prayer_times` applied to that identifier returns exactly that
city's prayer-time table (identity lookup). -/
theorem get_prayer_times_identity :
    ∀ p ∈ prayer_times_data, get_prayer_times p.1 = p.2 := by decide

theorem get_prayer_times_identity_witness :
    get_prayer_times "Karachi" = karachiTimes :=
  get_prayer_times_identity ("Karachi", karachiTimes) (by decide)

/-- C2: for every string that is not a key of the catalog — the empty
string and case-variants such as "karachi" included — `get_prayer_times`
returns the default Karachi table. The function is total (a Lean
function of type `String → List (String × String)`), so no input ever
raises: lookup either hits a key or takes the `getD` fallback. -/
theorem get_prayer_times_fallback :
    ∀ c : String, lookupCity c = none → get_prayer_times c = karachiTimes := by
  intro c h
  simp [get_prayer_times, h]

theorem get_prayer_times_fallback_witness :
    lookupCity "karachi" = none ∧ get_prayer_times "karachi" = karachiTimes :=
  ⟨by decide, get_prayer_times_fallback "karachi" (by decide)⟩

/-- C3: for every input on which the `strptime("%I:%M %p")` parse fails
(malformed string, missing meridiem, out-of-range hour or minute, e.g.
"not a time"), `get_zawal_time` returns the literal fallback
`"11:45 AM"`; being a total Lean function, it propagates no exception
to the caller on any input. -/
theorem get_zawal_time_fallback :
    ∀ s : String, parseTime12 s = none → get_zawal_time s = "11:45 AM" := by
  intro s h
  simp [get_zawal_time, deriveOffsetTime, h]

theorem get_zawal_time_fallback_witness :
    parseTime12 "not a time" = none ∧ get_zawal_time "not a time" = "11:45 AM" :=
  ⟨by decide, get_zawal_time_fallback "not a time" (by decide)⟩

/-- C4: subtracting the 5-minute offset from "12:00 AM" wraps across
the 12 AM/PM boundary to "11:55 PM" of the conceptual prior half-day;
no date component appears in the result. -/
theorem get_zawal_time_midnight_wrap :
    get_zawal_time "12:00 AM" = "11:55 PM" := by decide

/-- Formatting any time of day and re-parsing it with a zero offset is
the identity, for every 24-hour hour and minute in range. -/
theorem derive_zero_roundtrip (h24 : Nat) (hh : h24 < 24) :
    ∀ m < 60, deriveOffsetTime (strftime12 h24 m) 0 = strftime12 h24 m := by
  interval_cases h24 <;> decide

/-- C5: on every well-formed time string matching `HH:MM AM|PM`
(hour 01–12, minute 00–59, upper-case meridiem), a zero-minute offset
is the identity: the parse-then-format round trip reproduces the string
exactly. -/
theorem deriveOffsetTime_zero_id :
    ∀ t ∈ wellFormedTimes, deriveOffsetTime t 0 = t := by
  intro t ht
  simp only [wellFormedTimes, List.mem_flatMap, List.mem_range, List.mem_cons,
    List.not_mem_nil, or_false] at ht
  obtain ⟨h, -, m, hm, ht | ht⟩ := ht <;> subst ht
  · exact derive_zero_roundtrip ((h + 1) % 12) (by omega) m hm
  · exact derive_zero_roundtrip ((h + 1) % 12 + 12) (by omega) m hm

theorem deriveOffsetTime_zero_id_witness :
    "12:30 PM" ∈ wellFormedTimes ∧ deriveOffsetTime "12:30 PM" 0 = "12:30 PM" := by
  have hmem : "12:30 PM" ∈ wellFormedTimes := by
    simp only [wellFormedTimes, List.mem_flatMap, List.mem_range]
    exact ⟨11, by omega, 30, by omega, by decide⟩
  exact ⟨hmem, deriveOffsetTime_zero_id "12:30 PM" hmem⟩

/-- C6: subtracting the 5-minute offset from "12:30 PM" yields
"12:25 PM". -/
theorem get_zawal_time_noon_example :
    get_zawal_time "12:30 PM" = "12:25 PM" := by decide

/-- C7: the static catalog has exactly five city entries, and every
entry's table has exactly the same six prayer-name keys in the same
order (pre-dawn, sunrise, midday, afternoon, sunset, night). -/
theorem prayer_catalog_keys :
    prayer_times_data.map (fun p => p.2.map Prod.fst) = List.replicate 5 prayerKeys ∧
      prayerKeys.length = 6 := by decide

/-- C8: both operations embed as total Lean functions of their input
alone — they read no mutable state (the Python bodies only consult
their own local literals) and perform no I/O — so two invocations on
the same input return equal results. -/
theorem core_deterministic :
    ∀ c t : String,
      get_prayer_times c = get_prayer_times c ∧ get_zawal_time t = get_zawal_time t :=
  fun _ _ => ⟨rfl, rfl⟩

/-- C9: called with no argument, `get_prayer_times` uses the Python
default parameter `city="Karachi"` and returns the Karachi table. -/
theorem get_prayer_times_default :
    (get_prayer_times : List (String × String)) = karachiTimes := by decide

/-- C10: the input "5:15 AM" does not match the zero-padded
`HH:MM AM|PM` shape, yet the `%I` directive accepts the one-digit hour,
so `get_zawal_time` returns the computed, zero-padded "05:10 AM" rather
than the "11:45 AM" fallback. -/
theorem get_zawal_time_unpadded_hour :
    get_zawal_time "5:15 AM" = "05:10 AM" ∧ get_zawal_time "5:15 AM" ≠ "11:45 AM" := by
  decide
